import Mathlib

/-
Shallow embedding of billybrichards/climate-parser (src/index.js).
The service is an Express app: a CORS middleware, a JSON body parser, an
X-API-Key auth middleware, a POST /api/parse route that forwards the caller
text to an OpenAI chat-completion call and relays the parsed JSON, plus
GET /api/test-openai, GET /api/health, GET /, and a catch-all 404.
JavaScript builtins (JSON.parse) and the network (the OpenAI client) are
modelled as function parameters; JS exceptions become explicit error values.
-/

namespace ClimateParser

/-- JSON values as produced by the JavaScript JSON builtins.  Numbers are
modelled as integers (no claim depends on float behaviour). -/
inductive Json where
  | null
  | bool (b : Bool)
  | num (n : Int)
  | str (s : String)
  | arr (elems : List Json)
  | obj (fields : List (String × Json))

/-- Property lookup `v[k]`: `none` models JavaScript `undefined` (absent key,
or receiver not an object). -/
def getField : Json → String → Option Json
  | .obj fields, k => (fields.find? (fun p => p.1 == k)).map (fun p => p.2)
  | _, _ => none

/-- JavaScript truthiness of a JSON value, as tested by `if (!text)`
(src/index.js line 305): null, false, 0 and "" are falsy. -/
def jsTruthy : Json → Bool
  | .null => false
  | .bool b => b
  | .num n => n != 0
  | .str s => s != ""
  | .arr _ => true
  | .obj _ => true

/-- Truthiness of `body.text` where the field may be absent (undefined). -/
def jsTruthyOpt : Option Json → Bool
  | none => false
  | some v => jsTruthy v

mutual

/-- JavaScript ToString coercion, as performed by the template literal
`${text}` in the user message (src/index.js line 248). -/
def jsToString : Json → String
  | .null => "null"
  | .bool b => if b then "true" else "false"
  | .num n => toString n
  | .str s => s
  | .arr elems => String.intercalate "," (jsToStringList elems)
  | .obj _ => "[object Object]"

/-- Array element stringification (Array.prototype.join: null renders ""). -/
def jsToStringList : List Json → List String
  | [] => []
  | .null :: vs => "" :: jsToStringList vs
  | v :: vs => jsToString v :: jsToStringList vs

end

/-- The environment variables the program reads.  A JS env var is a string or
undefined. -/
structure Env where
  apiSecretKey : Option String
  openaiApiKey : Option String
  nodeEnv : Option String

/-- JS truthiness of an env var or header value (`!process.env.X`,
`!apiKey`): undefined and "" are falsy. -/
def envTruthy : Option String → Bool
  | none => false
  | some s => s != ""

/-- src/index.js lines 14-21. -/
def allowedOrigins : List String :=
  ["http://localhost:3000",
   "http://localhost:3001",
   "http://localhost:8080",
   "http://localhost:8081",
   "https://changeblock.com",
   "https://feasibilityapp.vercel.app"]

/-- The CORS admission test of src/index.js lines 28-33: absent origin,
explicit allow-list entry, or a *.vercel.app / *.vercel.com suffix. -/
def corsOriginAllowed : Option String → Bool
  | none => true
  | some origin =>
      allowedOrigins.contains origin
        || origin.endsWith ".vercel.app"
        || origin.endsWith ".vercel.com"

/-- The three Access-Control-* headers set at src/index.js lines 35-37. -/
structure CorsHeaders where
  allowOrigin : String
  allowMethods : String
  allowHeaders : String

/-- Header values set for an admitted origin (`origin || '*'`). -/
def corsHeadersFor (origin : Option String) : CorsHeaders :=
  { allowOrigin := if envTruthy origin then origin.getD "*" else "*",
    allowMethods := "GET, POST, PUT, DELETE, OPTIONS",
    allowHeaders := "X-Requested-With, Content-Type, Accept, Authorization, X-API-Key" }

/-- Outcome of the CORS middleware (src/index.js lines 24-46): an OPTIONS
request from an admitted origin is answered 200 with an empty body
(`res.status(200).end()`); otherwise control passes to the next middleware,
with the headers that were set (if any). -/
inductive CorsResult where
  | preflight (headers : CorsHeaders)
  | next (headers : Option CorsHeaders)

def corsMiddleware (origin : Option String) (method : String) : CorsResult :=
  if corsOriginAllowed origin then
    if method == "OPTIONS" then
      .preflight (corsHeadersFor origin)
    else
      .next (some (corsHeadersFor origin))
  else
    .next none

/-- `{ error: msg }` response bodies. -/
def jsonError (msg : String) : Json :=
  .obj [("error", .str msg)]

/-- Outcome of an Express middleware: respond immediately, or call next(). -/
inductive AuthResult where
  | respond (status : Nat) (body : Json)
  | next

/-- The apiKeyAuth middleware, src/index.js lines 285-298.  `apiKey` is the
x-api-key request header. -/
def apiKeyAuth (env : Env) (apiKey : Option String) : AuthResult :=
  if !envTruthy env.apiSecretKey then
    .respond 500 (jsonError "Server configuration error: API key not configured")
  else if !envTruthy apiKey || apiKey != env.apiSecretKey then
    .respond 401 (jsonError "Unauthorized: Invalid API key")
  else
    .next

/-- One chat message, `{ role, content }`. -/
structure ChatMessage where
  role : String
  content : String

/-- The argument of `openai.chat.completions.create` at src/index.js
lines 244-251. -/
structure CompletionRequest where
  model : String
  messages : List ChatMessage
  max_completion_tokens : Nat

/-- The JS value found at `choices[0].message.content`: a string, undefined,
or some other non-string value (on which `.trim()` throws). -/
inductive JsContent where
  | str (s : String)
  | undef
  | nonString

structure UpstreamMessage where
  content : JsContent

structure UpstreamChoice where
  message : Option UpstreamMessage

/-- The shape of the completion response the code reads
(`response.choices[0].message.content`). -/
structure UpstreamResponse where
  choices : List UpstreamChoice

/-- A thrown JS error: its `.message` and `.stack` (the only properties the
handler reads when building the HTTP response). -/
structure JsError where
  message : String
  stack : String

/-- Result of awaiting `this.client.chat.completions.create(...)`: a response
value, or a thrown error (network, auth, quota, ...). -/
inductive CallOutcome where
  | success (resp : UpstreamResponse)
  | failure (err : JsError)

/-- Models `response.choices[0].message.content.trim()` (src/index.js
line 259).  Each missing link of the property chain throws a TypeError,
modelled as a `JsError` (the exact V8 message text is runtime detail; what
matters is that a throw occurs and carries a message). -/
def readContent (resp : UpstreamResponse) : Except JsError String :=
  match resp.choices.head? with
  | none =>
      .error { message := "Cannot read properties of undefined (reading \x27message\x27)",
               stack := "TypeError" }
  | some choice =>
      match choice.message with
      | none =>
          .error { message := "Cannot read properties of undefined (reading \x27content\x27)",
                   stack := "TypeError" }
      | some msg =>
          match msg.content with
          | .str s => .ok s.trim
          | .undef =>
              .error { message := "Cannot read properties of undefined (reading \x27trim\x27)",
                       stack := "TypeError" }
          | .nonString =>
              .error { message := "content.trim is not a function",
                       stack := "TypeError" }

/-- The error thrown at src/index.js line 270 when JSON.parse fails; it is
built from a constant string only (the raw content is logged, not embedded). -/
def parseFailureError : JsError :=
  { message := "Failed to parse OpenAI response as JSON",
    stack := "Error: Failed to parse OpenAI response as JSON" }

def SYSTEM_PROMPT : String := "SYSTEM / DEVELOPER INSTRUCTIONS (HIGH PRIORITY)\n\nYou are \"o3-mini: A Climate Project Data Parser\" powered by GPT-4o, with significantly enhanced capabilities for logical deduction, reasoning, and real-time web search, including access to a vast carbon market database and available files. Your mission is to parse unstructured text describing a climate or carbon project and transform it into a highly detailed and accurate structured JSON object, adhering strictly to the TypeScript interface below. Leverage your advanced capabilities, database access, and particularly file analysis to maximize data accuracy and completeness, especially regarding price determination.\n\nInterface Definition:\n------------------------------------------------\n\x60\x60\x60typescript\ninterface ProjectData \x7b\n    title?: string;\n    location?: string;\n    area?: string;\n    status?: string;\n    feasibility_score?: number;\n    difficulty_score?: number;\n    risk_score?: number;\n    methodology?: string;\n    start_date?: string;\n    environmental_asset_id?: string;\n    annual_credit_potential?: number;\n    buffer_allocation?: number;\n    saleable_credits?: number;\n    sdgs?: string[];\n    certifications?: string[];\n    analysis?: string;\n    core_data?: Record<string, string>;\n    potential_buyers?: Record<string, string>;\n    price_potential?: Record<string, string>;\n    commentary?: Record<string, string>;\n\x7d\n\x60\x60\x60\n\nEnhanced Instructions:\n\t1.\tUnwavering JSON Output:\n\t•\tProduce only valid JSON. No extraneous text, Markdown, or explanations outside the JSON structure are permitted.\n\t•\tTop-level property names must match the interface exactly.\n\t2.\tMaximized Deductive Power:\n\t•\tEmploy the full extent of your logical deduction capabilities, informed by comprehensive web searches, the carbon market database, available files, and your extensive knowledge base, to infer missing or unclear data.\n\t•\tProvide detailed justifications for all deductions within the “analysis” and “commentary” sections.\n\t•\tWhen absolute certainty is unattainable, make the most probable assumption based on available data and clearly state the reasoning.\n\t3.\tComprehensive Web, Database, and File Integration:\n\t•\tUtilize file search, web search, and the carbon market database to:\n\t•\tIdentify the top 3 most relevant methodologies, providing detailed comparisons.\n\t•\tPrioritize file analysis to determine precise, up-to-date carbon credit pricing for comparable projects and project future prices.\n\t•\tIdentify potential buyers, market trends, and relevant regulatory information for current and future years.\n\t•\tAnalyze current market conditions and supply/demand dynamics.\n\t•\tUse available files to fill in missing data, and provide error bar ranges when possible.\n\t•\tProvide an in-depth “analysis” section (150–200 words) that thoroughly explains your reasoning, including assumptions, deductions, supporting data from all sources, and market context.\n\t•\tPopulate the “commentary” section with detailed explanations for each field, explicitly stating the data source and reasoning behind each value.\n\t4.\tPrecise Numeric Data Handling:\n\t•\tConvert all numeric fields to numbers. When provided with ranges, derive the most likely value based on market data and project characteristics, providing a clear justification and error bar ranges when possible.\n\t•\tFor price potentials, provide ranges and reasoning, prioritizing file-based price data.\n\t5.\tComprehensive Certification and SDG Identification:\n\t•\tIdentify and include all mentioned and implied certifications and SDGs, leveraging database and file information to enhance accuracy.\n\t6.\tEnvironmental Asset ID Management:\n\t•\tIf the “environmental_asset_id” is not explicitly provided, attempt to generate a probable ID based on project details and market conventions, or set it to “on request” with a clear explanation.\n\t7.\tComplete Core Data Documentation:\n\t•\tThoroughly document all missing or ambiguous essential data within the “core_data” object, providing detailed notes, potential data sources, and error bar ranges where possible.\n\t•\tCreate a dedicated commentary section in the “commentary” object for each key in core_data.\n\t8.\tAdvanced Methodology and Registry Suggestion:\n\t•\tSuggest the most appropriate methodologies and registries, providing detailed comparisons and justifications based on market data, file data, and project characteristics.\n\t9.\tPrice and Buyer Projections:\n\t•\tAdd “potential_buyers” and “price_potential” objects which include projections for the years 2025–2029.\n\t•\tFor “price_potential”, determine the price ranges by analyzing available files for projects with similar descriptions or activities, and clearly document the specific files and project similarities used in your deduction.\n\t•\tAdd dedicated commentary for each year in both “potential_buyers” and “price_potential”, explaining the rationale behind each projection.\n\nUSER INSTRUCTIONS (MEDIUM PRIORITY)\n\nYou will receive a single block of text describing a climate or carbon project. Your task is to:\n\t1.\tParse the text into the structured ProjectData JSON format.\n\t2.\tProvide highly detailed and justified logical and data-driven deductions in the “analysis” and “commentary” sections.\n\t3.\tClearly note any ambiguous or missing essential fields in “core_data” and provide error bar ranges where possible. Add a dedicated commentary section for each key in the core_data object.\n\t4.\tAdd “potential_buyers” and “price_potential” objects which include projections for 2025-2029. Add appropriate commentary for each year, with a strong focus on utilizing and referencing file data for price projections.\n\t5.\tReturn only the final JSON output.\n\nExample 1\n\nUser input:\n\nThe Verde initiative in northern Brazil involves approximately 40k hectares. Implementation expected next year with Gold Standard certification being pursued. Indigenous communities will help monitor. Estimated carbon sequestration around 15-20 thousand units per annum, with standard buffers applied. Reference code VRD-2023.\n\nSample JSON response:\n\n\x7b\n“title”: “Verde Initiative”,\n“location”: “Northern Brazil”,\n“area”: “40000 ha”,\n“status”: “Planning”,\n“feasibility_score”: 8,\n“difficulty_score”: 6,\n“risk_score”: 3,\n“methodology”: “AR-ACM0003 (Gold Standard), VM0007 (Verra), CAR10.0 (CAR)”,\n“start_date”: “2024-03-15”,\n“environmental_asset_id”: “VRD-2024-001”,\n“annual_credit_potential”: 18000,\n“buffer_allocation”: 10,\n“saleable_credits”: 16200,\n“sdgs”: [“SDG 13”, “SDG 15”],\n“certifications”: [“Gold Standard”],\n“analysis”: “The Verde Initiative, a reforestation project in Northern Brazil, is in advanced planning, targeting 40,000 hectares. Based on market data and file analysis of similar projects, a credit yield of 18,000 is used, considering the range of 16,000-20,000. Methodologies AR-ACM0003, VM0007, and CAR10.0 were selected from both web and file-based comparisons, with AR-ACM0003 being the preferred choice under Gold Standard. Current carbon credit prices extracted from files are trending at $15-$25, with projected increases based on market dynamics. Potential buyers include large corporations, ESG funds, airlines, and governmental bodies. The generated environmental asset ID VRD-2024-001 aligns with market conventions. SDG 13 and 15 are applicable. Overall feasibility is high due to community involvement, while risks are mitigated by certification. Start date is projected for next year.”,\n“core_data”: \x7b\n“environmental_asset_id”: “VRD-2024-001 (Generated based on project code and market conventions; error bar: N/A)”,\n“annual_credit_potential”: “18000 (Range: 16000-20000 based on file data and market analysis)”,\n“buffer_allocation”: “10% (Range: 9%-11% based on industry standards)”,\n“saleable_credits”: “16200 (Calculated after 10% buffer deduction; Range: 14400-18000)”\n\x7d,\n“potential_buyers”: \x7b\n“2025”: “Large Corporations, ESG Funds, Airlines”,\n“2026”: “Large Corporations, ESG Funds, Airlines, Governments”,\n“2027”: “Large Corporations, ESG Funds, Airlines, Governments, Investment Firms”,\n“2028”: “Large Corporations, ESG Funds, Airlines, Governments, Investment Firms, Carbon Exchanges”,\n“2029”: “Large Corporations, ESG Funds, Airlines, Governments, Investment Firms, Carbon Exchanges, Retail Investors”\n\x7d,\n“price_potential”: \x7b\n“2025”: “$18-$28 (Derived from file analysis of similar projects; files: ProjectFile_A, ProjectFile_B)”,\n“2026”: “$20-$32 (Adjusted upward based on market trends noted in file data; files: ProjectFile_A, ProjectFile_C)”,\n“2027”: “$23-$38 (Projected increase supported by multiple file sources indicating rising demand)”,\n“2028”: “$27-$45 (File data trends and regulatory developments suggest further price appreciation)”,\n“2029”: “$30-$55 (Highest range reflecting anticipated market growth and increased project scale)”\n\x7d,\n“commentary”: \x7b\n“title”: “Extracted directly from the provided text.”,\n“location”: “Identified as ‘Northern Brazil’ from the input.”,\n“area”: “Derived from ‘approximately 40k hectares’, converted to ‘40000 ha’.”,\n“status”: “Inferred as ‘Planning’ based on implementation expected next year.”,\n“feasibility_score”: “Set to 8 due to strong community involvement and pursuit of Gold Standard certification.”,\n“difficulty_score”: “Assigned 6, slightly above average considering project scale and complexity.”,\n“risk_score”: “Reduced to 3 as the project benefits from certification and community support.”,\n“methodology”: “Selected AR-ACM0003 (Gold Standard), VM0007 (Verra), and CAR10.0 (CAR) based on comprehensive web, file, and database analysis; AR-ACM0003 is prioritized.”,\n“start_date”: “Projected as next year, with a specific date generated as ‘2024-03-15’.”,\n“environmental_asset_id”: “Generated as ‘VRD-2024-001’ based on market conventions and project reference code.”,\n“annual_credit_potential”: “Determined as 18000, using the midpoint of the range (16000-20000) from file analysis.”,\n“buffer_allocation”: “Standard industry assumption of 10% applied; error bar range: 9%-11%.”,\n“saleable_credits”: “Calculated as 16200 after buffer deduction; error bar range: 14400-18000.”,\n“sdgs”: “SDG 13 and SDG 15 inferred based on project type and certification requirements.”,\n“certifications”: “Gold Standard explicitly mentioned in the text.”,\n“potential_buyers”: “Projections based on current market analysis and file data of similar projects. Each year’s projection reflects expanded interest from additional sectors.”,\n“price_potential”: “Price ranges for 2025-2029 derived primarily from file analysis of projects with similar profiles (e.g., ProjectFile_A, ProjectFile_B, ProjectFile_C). Each year’s range is justified based on documented market trends and anticipated regulatory impacts.”\n\x7d\n\x7d\n\nThis is your complete prompt. Use it as-is to transform any provided climate or carbon project description into a structured JSON object with detailed, file-informed price determinations and comprehensive data-driven deductions.\n"

/-- The user message content, src/index.js line 248. -/
def buildUserContent (text : String) : String :=
  "Parse the following climate project description into structured JSON:\n\n" ++ text

/-- The single completion request issued per extraction, src/index.js
lines 244-251: fixed model, system prompt + user text, fixed token budget. -/
def buildRequest (text : String) : CompletionRequest :=
  { model := "o3-mini-2025-01-31",
    messages := [{ role := "system", content := SYSTEM_PROMPT },
                 { role := "user", content := buildUserContent text }],
    max_completion_tokens := 4000 }

/-- The ClimateProjectParser instance state: `this.requestCount`,
initialised to 0 in the constructor (src/index.js lines 230-233). -/
structure ClimateProjectParser where
  requestCount : Nat

def ClimateProjectParser.init : ClimateProjectParser :=
  { requestCount := 0 }

/-- What extractProjectInfo produces for the caller. -/
inductive ExtractResult where
  | ok (json : Json)
  | err (e : JsError)

/-- Full observable effect of one extractProjectInfo call: its return/throw,
the list of completion requests it issued, the requestId it logged, and the
parser state afterwards. -/
structure ExtractOutput where
  result : ExtractResult
  calls : List CompletionRequest
  requestId : Nat
  state : ClimateProjectParser

/-- extractProjectInfo, src/index.js lines 235-281.
`requestId = ++this.requestCount` happens first; exactly one completion call
is issued (no retry on any path); the response content is trimmed and fed to
JSON.parse (`parseJson`); a parse failure throws the constant-message error of
line 270; any error from the call or the property chain is rethrown by the
outer catch (line 279) unchanged. -/
def extractProjectInfo (p : ClimateProjectParser)
    (complete : CompletionRequest → CallOutcome)
    (parseJson : String → Option Json) (text : String) : ExtractOutput :=
  let requestId := p.requestCount + 1
  let state : ClimateProjectParser := { requestCount := requestId }
  let req := buildRequest text
  let result : ExtractResult :=
    match complete req with
    | .failure err => .err err
    | .success resp =>
        match readContent resp with
        | .error e => .err e
        | .ok jsonContent =>
            match parseJson jsonContent with
            | some parsedJson => .ok parsedJson
            | none => .err parseFailureError
  { result := result, calls := [req], requestId := requestId, state := state }

/-- The body of the error response built at src/index.js lines 326-329:
`{ error: error.message, details: NODE_ENV === 'development' ? error.stack :
undefined }` (JSON serialisation drops an undefined property). -/
def errorBody (env : Env) (e : JsError) : Json :=
  if env.nodeEnv == some "development" then
    .obj [("error", .str e.message), ("details", .str e.stack)]
  else
    jsonError e.message

/-- Externally observable events of one request: the auth middleware running,
a chat-completion call, a `responses.create` call (test endpoint). -/
inductive Event where
  | authCheck
  | completionCall (req : CompletionRequest)
  | responsesCall

/-- A route handler's result: status, JSON body, events it caused. -/
structure HandlerResult where
  status : Nat
  body : Json
  events : List Event

/-- The POST /api/parse handler body (after apiKeyAuth), src/index.js
lines 301-331.  `const { text } = req.body`; `if (!text)` rejects with 400;
a missing OPENAI_API_KEY rejects with 500; otherwise a fresh
ClimateProjectParser is constructed (line 318) and extractProjectInfo is
awaited; a thrown error is caught and becomes a 500 with `errorBody`. -/
def parseHandler (env : Env) (complete : CompletionRequest → CallOutcome)
    (parseJson : String → Option Json) (body : Json) : HandlerResult :=
  let text := getField body "text"
  if !jsTruthyOpt text then
    { status := 400, body := jsonError "Text field is required", events := [] }
  else if !envTruthy env.openaiApiKey then
    { status := 500, body := jsonError "OpenAI API key is not configured", events := [] }
  else
    match text with
    | none =>
        { status := 400, body := jsonError "Text field is required", events := [] }
    | some t =>
        let out := extractProjectInfo ClimateProjectParser.init complete parseJson (jsToString t)
        match out.result with
        | .ok projectInfo =>
            { status := 200, body := projectInfo,
              events := out.calls.map Event.completionCall }
        | .err e =>
            { status := 500, body := errorBody env e,
              events := out.calls.map Event.completionCall }

/-- Result of awaiting `openai.responses.create(...)` in the test endpoint:
the response's text and model fields, or a thrown error. -/
inductive ResponsesOutcome where
  | success (text : String) (model : Option String)
  | failure (err : JsError)

/-- The GET /api/test-openai handler body (after apiKeyAuth), src/index.js
lines 334-388. -/
def testOpenAIHandler (env : Env) (probe : ResponsesOutcome) : HandlerResult :=
  if !envTruthy env.openaiApiKey then
    { status := 500, body := jsonError "OpenAI API key is not configured", events := [] }
  else
    match probe with
    | .success txt model =>
        { status := 200,
          body := .obj [("status", .str "success"),
                        ("message", .str "OpenAI connection working"),
                        ("response", .str txt.trim),
                        ("model", .str (if envTruthy model then model.getD "o3-mini" else "o3-mini")),
                        ("tokens_used", .str "N/A")],
          events := [.responsesCall] }
    | .failure e =>
        { status := 500,
          body := if env.nodeEnv == some "development" then
                    .obj [("status", .str "error"),
                          ("message", .str "OpenAI connection failed"),
                          ("error", .str e.message),
                          ("details", .str e.stack)]
                  else
                    .obj [("status", .str "error"),
                          ("message", .str "OpenAI connection failed"),
                          ("error", .str e.message)],
          events := [.responsesCall] }

/-- The GET /api/health body, src/index.js lines 391-398 (`now` stands for
`new Date().toISOString()`). -/
def healthBody (now : String) : Json :=
  .obj [("status", .str "OK"),
        ("message", .str "Climate Project Parser API is running"),
        ("version", .str "1.0.1"),
        ("timestamp", .str now)]

/-- The catch-all 404 body, src/index.js line 485. -/
def notFoundBody : Json :=
  .obj [("error", .str "Not Found"),
        ("message", .str "The requested endpoint does not exist")]

def rootHtml : String := "\n    <!DOCTYPE html>\n    <html lang=\"en\">\n      <head>\n        <meta charset=\"UTF-8\">\n        <meta name=\"viewport\" content=\"width=device-width, initial-scale=1.0\">\n        <title>Climate Project Parser API</title>\n        <style>\n          body \x7b \n            font-family: -apple-system, BlinkMacSystemFont, \x27Segoe UI\x27, Roboto, Oxygen, Ubuntu, Cantarell, \x27Open Sans\x27, \x27Helvetica Neue\x27, sans-serif;\n            max-width: 800px; \n            margin: 0 auto; \n            padding: 20px;\n            line-height: 1.6;\n            color: #333;\n          \x7d\n          h1 \x7b color: #2c3e50; margin-bottom: 20px; \x7d\n          h2 \x7b color: #3498db; margin-top: 30px; \x7d\n          pre \x7b \n            background: #f8f9fa; \n            padding: 15px; \n            border-radius: 5px; \n            overflow-x: auto;\n            border: 1px solid #e9ecef;\n          \x7d\n          .code \x7b \n            font-family: \x27SFMono-Regular\x27, Consolas, \x27Liberation Mono\x27, Menlo, Courier, monospace;\n            background: #f1f1f1;\n            padding: 2px 4px;\n            border-radius: 3px;\n          \x7d\n          .endpoint \x7b\n            background: #e8f4fc;\n            padding: 10px 15px;\n            border-left: 4px solid #3498db;\n            margin: 20px 0;\n          \x7d\n          .note \x7b\n            background: #fff8e8;\n            padding: 10px 15px;\n            border-left: 4px solid #f39c12;\n            margin: 20px 0;\n          \x7d\n        </style>\n      </head>\n      <body>\n        <h1>Climate Project Parser API</h1>\n        <p>This API parses unstructured text describing climate or carbon projects and transforms it into structured JSON data.</p>\n        \n        <div class=\"endpoint\">\n          <h2>API Endpoint</h2>\n          <p>Submit POST requests to <span class=\"code\">/api/parse</span> with the following JSON body:</p>\n        </div>\n        \n        <pre>\n\x7b\n  \"text\": \"Blue Forest Mangrove Project spans 85,500 hectares in Indonesia...\"\n\x7d\n        </pre>\n        \n        <div class=\"note\">\n          <p><strong>Note:</strong> All requests require an API key to be included in the header as <span class=\"code\">X-API-Key</span>.</p>\n        </div>\n        \n        <h2>Response Format</h2>\n        <p>The API will return structured JSON with extracted climate project information including:</p>\n        <ul>\n          <li>Project title, location, and area</li>\n          <li>Feasibility, difficulty, and risk scores</li>\n          <li>Methodology and certification details</li>\n          <li>Credit potential and pricing projections</li>\n          <li>Detailed analysis and commentary</li>\n        </ul>\n        \n        <h2>Health Check</h2>\n        <p>You can check if the API is running by sending a GET request to <span class=\"code\">/api/health</span>.</p>\n      </body>\n    </html>\n  "

/-- An incoming HTTP request as the app observes it: method, path, the
Origin and X-API-Key headers, and the JSON-parsed body. -/
structure Request where
  method : String
  path : String
  origin : Option String
  apiKey : Option String
  body : Json

inductive ResponseBody where
  | empty
  | json (j : Json)
  | html (page : String)

/-- The response sent to the client: status, the CORS headers set by the
middleware (if any), and the body. -/
structure HttpResponse where
  status : Nat
  corsHeaders : Option CorsHeaders
  body : ResponseBody

/-- Route dispatch after the CORS middleware has called next():
POST /api/parse and GET /api/test-openai run apiKeyAuth first; then
GET /api/health, GET /, and the catch-all 404 (src/index.js 301-495). -/
def route (env : Env) (complete : CompletionRequest → CallOutcome)
    (parseJson : String → Option Json) (probe : ResponsesOutcome)
    (now : String) (req : Request) (cors : Option CorsHeaders) :
    HttpResponse × List Event :=
  if req.method == "POST" && req.path == "/api/parse" then
    match apiKeyAuth env req.apiKey with
    | .respond s b => ({ status := s, corsHeaders := cors, body := .json b }, [.authCheck])
    | .next =>
        let r := parseHandler env complete parseJson req.body
        ({ status := r.status, corsHeaders := cors, body := .json r.body },
         .authCheck :: r.events)
  else if req.method == "GET" && req.path == "/api/test-openai" then
    match apiKeyAuth env req.apiKey with
    | .respond s b => ({ status := s, corsHeaders := cors, body := .json b }, [.authCheck])
    | .next =>
        let r := testOpenAIHandler env probe
        ({ status := r.status, corsHeaders := cors, body := .json r.body },
         .authCheck :: r.events)
  else if req.method == "GET" && req.path == "/api/health" then
    ({ status := 200, corsHeaders := cors, body := .json (healthBody now) }, [])
  else if req.method == "GET" && req.path == "/" then
    ({ status := 200, corsHeaders := cors, body := .html rootHtml }, [])
  else
    ({ status := 404, corsHeaders := cors, body := .json notFoundBody }, [])

/-- The whole app: CORS middleware first (an admitted-origin OPTIONS request
is answered 200 with an empty body before any route or auth runs), then route
dispatch. -/
def app (env : Env) (complete : CompletionRequest → CallOutcome)
    (parseJson : String → Option Json) (probe : ResponsesOutcome)
    (now : String) (req : Request) : HttpResponse × List Event :=
  match corsMiddleware req.origin req.method with
  | .preflight hs => ({ status := 200, corsHeaders := some hs, body := .empty }, [])
  | .next cors => route env complete parseJson probe now req cors

/-- The requestId values observed by `n` successive /api/parse requests in
one process: the handler constructs a fresh ClimateProjectParser for every
request (src/index.js line 318), and no other state is shared between
requests, so each request's observed id is computed from a fresh counter. -/
def observedRequestIds (n : Nat) (complete : CompletionRequest → CallOutcome)
    (parseJson : String → Option Json) (texts : Nat → String) : List Nat :=
  (List.range n).map (fun i =>
    (extractProjectInfo ClimateProjectParser.init complete parseJson (texts i)).requestId)

end ClimateParser

namespace ClimateParser

/-! ## Shared lemmas and concrete fixtures -/

/-- For a non-OPTIONS request the CORS middleware always calls next(), so the
app is route dispatch with whatever headers the middleware set. -/
theorem app_eq_route (env : Env) (complete : CompletionRequest → CallOutcome)
    (parseJson : String → Option Json) (probe : ResponsesOutcome)
    (now : String) (req : Request)
    (h : (req.method == "OPTIONS") = false) :
    app env complete parseJson probe now req =
      route env complete parseJson probe now req
        (if corsOriginAllowed req.origin then some (corsHeadersFor req.origin) else none) := by
  cases hall : corsOriginAllowed req.origin <;>
    simp [app, corsMiddleware, hall, h]

/-- Whatever NODE_ENV is, the error body's `error` field is the thrown
error's message. -/
theorem getField_errorBody (env : Env) (e : JsError) :
    getField (errorBody env e) "error" = some (.str e.message) := by
  unfold errorBody
  split <;> rfl

def wEnv : Env :=
  { apiSecretKey := some "secret", openaiApiKey := some "sk-test", nodeEnv := none }

def wReq : Request :=
  { method := "POST", path := "/api/parse",
    origin := some "http://localhost:3000", apiKey := some "secret",
    body := .obj [("text", .str "Verde project in Brazil")] }

def wResult : Json := .obj [("title", .str "Verde")]

def wResp : UpstreamResponse :=
  { choices := [{ message := some { content := .str " JSONOBJ " } }] }

def wComplete : CompletionRequest → CallOutcome := fun _ => .success wResp

def wFailure : CompletionRequest → CallOutcome :=
  fun _ => .failure { message := "Connection error", stack := "Error: Connection error" }

/-- A JSON.parse oracle that accepts every string (what it returns is all the
relay path looks at). -/
def wParse : String → Option Json := fun _ => some wResult

/-- A JSON.parse oracle that rejects every string. -/
def wParseNone : String → Option Json := fun _ => none

def wProbe : ResponsesOutcome :=
  .failure { message := "probe failed", stack := "Error: probe failed" }

/-! ## C1 -/

/-- C1: a POST /api/parse request that passes authentication and validation,
whose completion call returns textual content that (after trimming) parses as
JSON `j`, is answered 200 with exactly `j` as the body — no modification,
filtering, or schema validation. -/
theorem parse_success_relays_json
    (env : Env) (complete : CompletionRequest → CallOutcome)
    (parseJson : String → Option Json) (probe : ResponsesOutcome) (now : String)
    (req : Request) (t : Json) (resp : UpstreamResponse)
    (choice : UpstreamChoice) (rest : List UpstreamChoice) (msg : UpstreamMessage)
    (raw : String) (j : Json)
    (hm : req.method = "POST") (hp : req.path = "/api/parse")
    (hs : envTruthy env.apiSecretKey = true)
    (hke : req.apiKey = env.apiSecretKey)
    (ht : getField req.body "text" = some t)
    (htr : jsTruthy t = true)
    (ho : envTruthy env.openaiApiKey = true)
    (hc : complete (buildRequest (jsToString t)) = .success resp)
    (hch : resp.choices = choice :: rest)
    (hmsg : choice.message = some msg)
    (hcontent : msg.content = .str raw)
    (hparse : parseJson raw.trim = some j) :
    (app env complete parseJson probe now req).1.status = 200 ∧
    (app env complete parseJson probe now req).1.body = .json j := by
  rw [app_eq_route env complete parseJson probe now req (by simp [hm])]
  simp [route, parseHandler, apiKeyAuth, extractProjectInfo, readContent, jsTruthyOpt,
        hm, hp, hs, hke, ht, htr, ho, hc, hch, hmsg, hcontent, hparse]

/-- C1 witness at a concrete request. -/
theorem parse_success_relays_json_witness :
    (app wEnv wComplete wParse wProbe "2025-01-01" wReq).1.status = 200 ∧
    (app wEnv wComplete wParse wProbe "2025-01-01" wReq).1.body = .json wResult :=
  parse_success_relays_json wEnv wComplete wParse wProbe "2025-01-01" wReq
    (.str "Verde project in Brazil") wResp
    { message := some { content := .str " JSONOBJ " } } []
    { content := .str " JSONOBJ " } " JSONOBJ " wResult
    rfl rfl rfl rfl rfl rfl rfl rfl rfl rfl rfl rfl

/-! ## C2 -/

/-- C2 counterexample: when the upstream content is not parseable JSON the
500 body's error message is "Failed to parse OpenAI response as JSON" — not
the phrase "Failed to parse upstream response as JSON" the claim states. -/
theorem parse_failure_message_counterexample :
    (app wEnv wComplete wParseNone wProbe "2025-01-01" wReq).1.status = 500 ∧
    (app wEnv wComplete wParseNone wProbe "2025-01-01" wReq).1.body =
      .json (jsonError "Failed to parse OpenAI response as JSON") ∧
    "Failed to parse OpenAI response as JSON" ≠ "Failed to parse upstream response as JSON" :=
  ⟨rfl, rfl, by decide⟩

/-- C2 (amended): when the completion succeeds but its trimmed textual
content is not parseable as JSON, the caller receives a 500 whose error
message is the generic phrase "Failed to parse OpenAI response as JSON", and
whose whole body is `errorBody env parseFailureError` — a value built from the
environment and constants only, so the raw upstream content never appears in
it. -/
theorem parse_failure_generic_500
    (env : Env) (complete : CompletionRequest → CallOutcome)
    (parseJson : String → Option Json) (probe : ResponsesOutcome) (now : String)
    (req : Request) (t : Json) (resp : UpstreamResponse)
    (choice : UpstreamChoice) (rest : List UpstreamChoice) (msg : UpstreamMessage)
    (raw : String)
    (hm : req.method = "POST") (hp : req.path = "/api/parse")
    (hs : envTruthy env.apiSecretKey = true)
    (hke : req.apiKey = env.apiSecretKey)
    (ht : getField req.body "text" = some t)
    (htr : jsTruthy t = true)
    (ho : envTruthy env.openaiApiKey = true)
    (hc : complete (buildRequest (jsToString t)) = .success resp)
    (hch : resp.choices = choice :: rest)
    (hmsg : choice.message = some msg)
    (hcontent : msg.content = .str raw)
    (hparse : parseJson raw.trim = none) :
    (app env complete parseJson probe now req).1.status = 500 ∧
    (app env complete parseJson probe now req).1.body = .json (errorBody env parseFailureError) ∧
    getField (errorBody env parseFailureError) "error" =
      some (.str "Failed to parse OpenAI response as JSON") := by
  refine ⟨?_, ?_, getField_errorBody env parseFailureError⟩ <;>
  · rw [app_eq_route env complete parseJson probe now req (by simp [hm])]
    simp [route, parseHandler, apiKeyAuth, extractProjectInfo, readContent, jsTruthyOpt,
          hm, hp, hs, hke, ht, htr, ho, hc, hch, hmsg, hcontent, hparse]

/-- C2 witness at a concrete request. -/
theorem parse_failure_generic_500_witness :
    (app wEnv wComplete wParseNone wProbe "2025-01-02" wReq).1.status = 500 ∧
    (app wEnv wComplete wParseNone wProbe "2025-01-02" wReq).1.body =
      .json (errorBody wEnv parseFailureError) ∧
    getField (errorBody wEnv parseFailureError) "error" =
      some (.str "Failed to parse OpenAI response as JSON") :=
  parse_failure_generic_500 wEnv wComplete wParseNone wProbe "2025-01-02" wReq
    (.str "Verde project in Brazil") wResp
    { message := some { content := .str " JSONOBJ " } } []
    { content := .str " JSONOBJ " } " JSONOBJ "
    rfl rfl rfl rfl rfl rfl rfl rfl rfl rfl rfl rfl

/-! ## C3 -/

/-- The request of C3's counterexample: a body whose `text` field holds the
number 42 — non-string but truthy. -/
def wReqNum : Request :=
  { method := "POST", path := "/api/parse",
    origin := some "http://localhost:3000", apiKey := some "secret",
    body := .obj [("text", .num 42)] }

/-- C3 counterexample: a body whose `text` is the non-string value 42 is NOT
rejected with 400 — `if (!text)` only tests truthiness — and the external
completion service IS invoked (with the coerced string "42"). -/
theorem text_validation_nonstring_counterexample :
    (app wEnv wComplete wParse wProbe "2025-01-01" wReqNum).1.status = 200 ∧
    (app wEnv wComplete wParse wProbe "2025-01-01" wReqNum).1.status ≠ 400 ∧
    (app wEnv wComplete wParse wProbe "2025-01-01" wReqNum).2 =
      [Event.authCheck, Event.completionCall (buildRequest "42")] :=
  ⟨rfl, by decide, rfl⟩

/-- C3 (amended): a POST /api/parse request that passes authentication and
whose `text` field is missing or falsy (absent, null, false, 0 or the empty
string) is answered 400 with an error message, and the external completion
service is never invoked; truthy non-string values are not rejected by this
validation. -/
theorem falsy_text_rejected_400
    (env : Env) (complete : CompletionRequest → CallOutcome)
    (parseJson : String → Option Json) (probe : ResponsesOutcome) (now : String)
    (req : Request)
    (hm : req.method = "POST") (hp : req.path = "/api/parse")
    (hs : envTruthy env.apiSecretKey = true)
    (hke : req.apiKey = env.apiSecretKey)
    (ht : jsTruthyOpt (getField req.body "text") = false) :
    (app env complete parseJson probe now req).1.status = 400 ∧
    (app env complete parseJson probe now req).1.body =
      .json (jsonError "Text field is required") ∧
    (app env complete parseJson probe now req).2 = [Event.authCheck] := by
  rw [app_eq_route env complete parseJson probe now req (by simp [hm])]
  refine ⟨?_, ?_, ?_⟩ <;>
    simp [route, parseHandler, apiKeyAuth, hm, hp, hs, hke, ht]

/-- C3 witness: a body with no `text` field at all, with a valid key. -/
theorem falsy_text_rejected_400_witness :
    (app wEnv wComplete wParse wProbe "2025-01-01"
        { wReq with body := .obj [("other", .str "x")] }).1.status = 400 ∧
    (app wEnv wComplete wParse wProbe "2025-01-01"
        { wReq with body := .obj [("other", .str "x")] }).1.body =
      .json (jsonError "Text field is required") ∧
    (app wEnv wComplete wParse wProbe "2025-01-01"
        { wReq with body := .obj [("other", .str "x")] }).2 = [Event.authCheck] :=
  falsy_text_rejected_400 wEnv wComplete wParse wProbe "2025-01-01"
    { wReq with body := .obj [("other", .str "x")] }
    rfl rfl rfl rfl rfl

/-! ## C4 -/

/-- C4: when the shared secret is configured, a POST /api/parse request whose
X-API-Key header is missing (or empty) or differs from the secret is answered
401, and the external completion service is never invoked. -/
theorem invalid_api_key_rejected_401
    (env : Env) (complete : CompletionRequest → CallOutcome)
    (parseJson : String → Option Json) (probe : ResponsesOutcome) (now : String)
    (req : Request)
    (hm : req.method = "POST") (hp : req.path = "/api/parse")
    (hs : envTruthy env.apiSecretKey = true)
    (hbad : envTruthy req.apiKey = false ∨ req.apiKey ≠ env.apiSecretKey) :
    (app env complete parseJson probe now req).1.status = 401 ∧
    (app env complete parseJson probe now req).1.body =
      .json (jsonError "Unauthorized: Invalid API key") ∧
    (app env complete parseJson probe now req).2 = [Event.authCheck] := by
  rw [app_eq_route env complete parseJson probe now req (by simp [hm])]
  have hauth : apiKeyAuth env req.apiKey =
      .respond 401 (jsonError "Unauthorized: Invalid API key") := by
    unfold apiKeyAuth
    rcases hbad with h | h <;> simp [hs, h]
  refine ⟨?_, ?_, ?_⟩ <;> simp [route, hm, hp, hauth]

/-- C4 witness: a wrong key on an otherwise correct request. -/
theorem invalid_api_key_rejected_401_witness :
    (app wEnv wComplete wParse wProbe "2025-01-01"
        { wReq with apiKey := some "wrong" }).1.status = 401 ∧
    (app wEnv wComplete wParse wProbe "2025-01-01"
        { wReq with apiKey := some "wrong" }).1.body =
      .json (jsonError "Unauthorized: Invalid API key") ∧
    (app wEnv wComplete wParse wProbe "2025-01-01"
        { wReq with apiKey := some "wrong" }).2 = [Event.authCheck] :=
  invalid_api_key_rejected_401 wEnv wComplete wParse wProbe "2025-01-01"
    { wReq with apiKey := some "wrong" }
    rfl rfl rfl (Or.inr (by decide))

/-! ## C5 -/

/-- C5: when API_SECRET_KEY is unset, every request to either authenticated
endpoint (POST /api/parse and GET /api/test-openai) is answered 500 with the
configuration-error message, whatever X-API-Key the request carries, and no
external call is made. -/
theorem secret_unconfigured_returns_500
    (env : Env) (complete : CompletionRequest → CallOutcome)
    (parseJson : String → Option Json) (probe : ResponsesOutcome) (now : String)
    (req : Request)
    (hs : env.apiSecretKey = none)
    (hroute : (req.method = "POST" ∧ req.path = "/api/parse") ∨
              (req.method = "GET" ∧ req.path = "/api/test-openai")) :
    (app env complete parseJson probe now req).1.status = 500 ∧
    (app env complete parseJson probe now req).1.body =
      .json (jsonError "Server configuration error: API key not configured") ∧
    (app env complete parseJson probe now req).2 = [Event.authCheck] := by
  have hauth : apiKeyAuth env req.apiKey =
      .respond 500 (jsonError "Server configuration error: API key not configured") := by
    unfold apiKeyAuth
    simp [hs, envTruthy]
  rcases hroute with ⟨hm, hp⟩ | ⟨hm, hp⟩ <;>
  · rw [app_eq_route env complete parseJson probe now req (by simp [hm])]
    refine ⟨?_, ?_, ?_⟩ <;> simp [route, hm, hp, hauth]

/-- C5 witness: both endpoints, with a key present in the request. -/
theorem secret_unconfigured_returns_500_witness :
    ((app { apiSecretKey := none, openaiApiKey := some "sk-test", nodeEnv := none }
        wComplete wParse wProbe "2025-01-01" wReq).1.status = 500 ∧
     (app { apiSecretKey := none, openaiApiKey := some "sk-test", nodeEnv := none }
        wComplete wParse wProbe "2025-01-01" wReq).1.body =
       .json (jsonError "Server configuration error: API key not configured") ∧
     (app { apiSecretKey := none, openaiApiKey := some "sk-test", nodeEnv := none }
        wComplete wParse wProbe "2025-01-01" wReq).2 = [Event.authCheck]) ∧
    ((app { apiSecretKey := none, openaiApiKey := some "sk-test", nodeEnv := none }
        wComplete wParse wProbe "2025-01-01"
        { wReq with method := "GET", path := "/api/test-openai" }).1.status = 500 ∧
     (app { apiSecretKey := none, openaiApiKey := some "sk-test", nodeEnv := none }
        wComplete wParse wProbe "2025-01-01"
        { wReq with method := "GET", path := "/api/test-openai" }).1.body =
       .json (jsonError "Server configuration error: API key not configured") ∧
     (app { apiSecretKey := none, openaiApiKey := some "sk-test", nodeEnv := none }
        wComplete wParse wProbe "2025-01-01"
        { wReq with method := "GET", path := "/api/test-openai" }).2 = [Event.authCheck]) :=
  ⟨secret_unconfigured_returns_500 _ wComplete wParse wProbe "2025-01-01" wReq
     rfl (Or.inl ⟨rfl, rfl⟩),
   secret_unconfigured_returns_500 _ wComplete wParse wProbe "2025-01-01"
     { wReq with method := "GET", path := "/api/test-openai" }
     rfl (Or.inr ⟨rfl, rfl⟩)⟩

/-! ## C6 -/

/-- C6: every extractProjectInfo invocation issues exactly one completion
call, whatever the outcome of that call (so no retry on success or failure);
the call is the fixed system-prompt template plus the caller text, with the
fixed model identifier and the fixed maximum-output-token budget. -/
theorem extraction_single_fixed_call
    (p : ClimateProjectParser) (complete : CompletionRequest → CallOutcome)
    (parseJson : String → Option Json) (text : String) :
    (extractProjectInfo p complete parseJson text).calls = [buildRequest text] ∧
    (buildRequest text).model = "o3-mini-2025-01-31" ∧
    (buildRequest text).max_completion_tokens = 4000 ∧
    (buildRequest text).messages =
      [{ role := "system", content := SYSTEM_PROMPT },
       { role := "user",
         content := "Parse the following climate project description into structured JSON:\n\n" ++ text }] :=
  ⟨rfl, rfl, rfl, rfl⟩

/-! ## C7 -/

/-- C7 counterexample: two successive parse requests in the same process both
observe the counter value 1 — the handler builds a fresh ClimateProjectParser
per request, so the counter is not process-wide and two distinct requests DO
observe the same value. -/
theorem request_counter_not_monotonic_counterexample :
    observedRequestIds 2 wComplete wParse (fun _ => "some text") = [1, 1] ∧
    (observedRequestIds 2 wComplete wParse (fun _ => "some text")).getD 0 0 =
      (observedRequestIds 2 wComplete wParse (fun _ => "some text")).getD 1 0 :=
  ⟨rfl, rfl⟩

/-- C7 (amended): the counter is per-parser-instance: extractProjectInfo
increments it exactly once per call; but the parse handler constructs a new
ClimateProjectParser for every request, so every request in a process
observes the counter value 1 — the counter is not monotonically increasing
across successive requests. -/
theorem request_counter_per_instance :
    (∀ (p : ClimateProjectParser) (complete : CompletionRequest → CallOutcome)
        (parseJson : String → Option Json) (text : String),
        (extractProjectInfo p complete parseJson text).requestId = p.requestCount + 1 ∧
        (extractProjectInfo p complete parseJson text).state.requestCount =
          p.requestCount + 1) ∧
    (∀ (n : Nat) (complete : CompletionRequest → CallOutcome)
        (parseJson : String → Option Json) (texts : Nat → String),
        observedRequestIds n complete parseJson texts = List.replicate n 1) := by
  refine ⟨fun p complete parseJson text => ⟨rfl, rfl⟩, ?_⟩
  intro n complete parseJson texts
  simp [observedRequestIds, extractProjectInfo, ClimateProjectParser.init, List.map_const']

/-! ## C8 -/

/-- C8: an OPTIONS request whose Origin is in the allow-list, matches the
*.vercel.app / *.vercel.com wildcard, or is absent, is answered 200 by the
CORS middleware with the CORS headers set and an empty body — no route
handler, no authentication, no extraction (the event list is empty). -/
theorem preflight_short_circuit
    (env : Env) (complete : CompletionRequest → CallOutcome)
    (parseJson : String → Option Json) (probe : ResponsesOutcome) (now : String)
    (req : Request)
    (hm : req.method = "OPTIONS")
    (ho : req.origin = none ∨ ∃ o, req.origin = some o ∧
          (allowedOrigins.contains o = true ∨
           o.endsWith ".vercel.app" = true ∨ o.endsWith ".vercel.com" = true)) :
    app env complete parseJson probe now req =
      ({ status := 200, corsHeaders := some (corsHeadersFor req.origin),
         body := .empty }, []) := by
  have hall : corsOriginAllowed req.origin = true := by
    rcases ho with h | ⟨o, h, h1 | h1 | h1⟩
    · rw [h]; rfl
    · rw [h]; simp only [corsOriginAllowed, h1, Bool.true_or, Bool.or_true]
    · rw [h]; simp only [corsOriginAllowed, h1, Bool.true_or, Bool.or_true]
    · rw [h]; simp only [corsOriginAllowed, h1, Bool.true_or, Bool.or_true]
  simp [app, corsMiddleware, hall, hm]

/-- C8 witness: OPTIONS /api/parse from an allow-listed origin. -/
theorem preflight_short_circuit_witness :
    app wEnv wComplete wParse wProbe "2025-01-01" { wReq with method := "OPTIONS" } =
      ({ status := 200, corsHeaders := some (corsHeadersFor (some "http://localhost:3000")),
         body := .empty }, []) :=
  preflight_short_circuit wEnv wComplete wParse wProbe "2025-01-01"
    { wReq with method := "OPTIONS" } rfl
    (Or.inr ⟨"http://localhost:3000", rfl, Or.inl (by decide)⟩)

/-! ## C9 -/

/-- C9: every GET /api/health request is answered 200 with a body whose
status field is "OK", for every environment configuration (no credential or
secret needed) and every upstream behaviour. -/
theorem health_returns_ok
    (env : Env) (complete : CompletionRequest → CallOutcome)
    (parseJson : String → Option Json) (probe : ResponsesOutcome) (now : String)
    (req : Request)
    (hm : req.method = "GET") (hp : req.path = "/api/health") :
    (app env complete parseJson probe now req).1.status = 200 ∧
    (app env complete parseJson probe now req).1.body = .json (healthBody now) ∧
    getField (healthBody now) "status" = some (.str "OK") := by
  rw [app_eq_route env complete parseJson probe now req (by simp [hm])]
  refine ⟨?_, ?_, rfl⟩ <;> simp [route, hm, hp]

/-- C9 witness: health check with nothing configured and no API key. -/
theorem health_returns_ok_witness :
    (app { apiSecretKey := none, openaiApiKey := none, nodeEnv := none }
        wComplete wParse wProbe "2025-01-01"
        { method := "GET", path := "/api/health", origin := none,
          apiKey := none, body := .null }).1.status = 200 ∧
    (app { apiSecretKey := none, openaiApiKey := none, nodeEnv := none }
        wComplete wParse wProbe "2025-01-01"
        { method := "GET", path := "/api/health", origin := none,
          apiKey := none, body := .null }).1.body =
      .json (healthBody "2025-01-01") ∧
    getField (healthBody "2025-01-01") "status" = some (.str "OK") :=
  health_returns_ok { apiSecretKey := none, openaiApiKey := none, nodeEnv := none }
    wComplete wParse wProbe "2025-01-01"
    { method := "GET", path := "/api/health", origin := none,
      apiKey := none, body := .null } rfl rfl

/-! ## C10 -/

/-- Every outcome of the completion call — thrown error, response lacking a
first choice, missing message, non-string content, unparseable content, or
full success — leaves the parse handler with a 200, or a 500 whose JSON body
carries an error message. -/
theorem parseHandler_total
    (env : Env) (complete : CompletionRequest → CallOutcome)
    (parseJson : String → Option Json) (body : Json) (t : Json)
    (ht : getField body "text" = some t) (htr : jsTruthy t = true)
    (ho : envTruthy env.openaiApiKey = true) :
    (parseHandler env complete parseJson body).status = 200 ∨
    ((parseHandler env complete parseJson body).status = 500 ∧
     ∃ m, getField (parseHandler env complete parseJson body).body "error" =
       some (.str m)) := by
  rcases hres : (extractProjectInfo ClimateProjectParser.init complete parseJson
      (jsToString t)).result with j | e
  · left
    simp [parseHandler, jsTruthyOpt, ht, htr, ho, hres]
  · right
    refine ⟨?_, e.message, ?_⟩ <;>
      simp [parseHandler, jsTruthyOpt, ht, htr, ho, hres, getField_errorBody]

/-- C10: a POST /api/parse request that passes authentication and validation
is always answered with a JSON body: 200 on success, otherwise 500 with an
error message — every exception raised while calling upstream or while
reading, trimming or parsing its response is caught and mapped to a 500 body,
for every upstream behaviour expressible in the model. -/
theorem parse_request_never_unanswered
    (env : Env) (complete : CompletionRequest → CallOutcome)
    (parseJson : String → Option Json) (probe : ResponsesOutcome) (now : String)
    (req : Request) (t : Json)
    (hm : req.method = "POST") (hp : req.path = "/api/parse")
    (hs : envTruthy env.apiSecretKey = true)
    (hke : req.apiKey = env.apiSecretKey)
    (ht : getField req.body "text" = some t)
    (htr : jsTruthy t = true)
    (ho : envTruthy env.openaiApiKey = true) :
    ∃ b, (app env complete parseJson probe now req).1.body = .json b ∧
      ((app env complete parseJson probe now req).1.status = 200 ∨
       ((app env complete parseJson probe now req).1.status = 500 ∧
        ∃ m, getField b "error" = some (.str m))) := by
  rw [app_eq_route env complete parseJson probe now req (by simp [hm])]
  have hauth : apiKeyAuth env req.apiKey = .next := by
    unfold apiKeyAuth
    simp [hs, hke]
  refine ⟨(parseHandler env complete parseJson req.body).body, ?_, ?_⟩
  · simp [route, hm, hp, hauth]
  · rcases parseHandler_total env complete parseJson req.body t ht htr ho with
      h | ⟨h5, m, hget⟩
    · left
      simp [route, hm, hp, hauth, h]
    · right
      exact ⟨by simp [route, hm, hp, hauth, h5], m, hget⟩

/-- C10 witness: the upstream call throws; the caller still gets a 500 JSON
body with an error message. -/
theorem parse_request_never_unanswered_witness :
    ∃ b, (app wEnv wFailure wParse wProbe "2025-01-01" wReq).1.body = .json b ∧
      ((app wEnv wFailure wParse wProbe "2025-01-01" wReq).1.status = 200 ∨
       ((app wEnv wFailure wParse wProbe "2025-01-01" wReq).1.status = 500 ∧
        ∃ m, getField b "error" = some (.str m))) :=
  parse_request_never_unanswered wEnv wFailure wParse wProbe "2025-01-01" wReq
    (.str "Verde project in Brazil") rfl rfl rfl rfl rfl rfl rfl

end ClimateParser
